import Mathlib

/-!
Shallow embedding of the OAuth credential broker of claude-code-router:
the on-disk token store (src/unnamed/part_001, tokenStore.ts section), the
refresh coordinator (src/unnamed/part_005, oauth/tokenRefresh.ts), the device
authorization poll loop (src/unnamed/part_004, oauth/deviceCode.ts), and the
authorization-code flow with its callback handler and per-provider active-flow
table (src/packages/shared/src/auth/oauth/authorizationCode.ts).

File-system effects are made explicit as a small state type plus an event log;
JavaScript truthiness of strings is modelled as inequality with the empty
string; `Date.now()` timestamps are `Int` milliseconds passed explicitly.
-/

namespace CCR

/-! ## Data model (src/packages/shared/src/auth/types.ts) -/

/-- `OAuthToken` from types.ts: `{type:'oauth', access, refresh, expires, accountId?}`.
`expires` is a Unix timestamp in milliseconds. -/
structure OAuthTokenData where
  access : String
  refresh : String
  expires : Int
  accountId : Option String := none
deriving DecidableEq, Repr

/-- `AuthToken = OAuthToken | ApiKeyToken` (discriminated union from types.ts). -/
inductive AuthToken where
  | oauth (data : OAuthTokenData)
  | api (key : String)
deriving DecidableEq, Repr

/-- `AuthStore` from types.ts: provider name → token (a JSON object, i.e. a
finite map; modelled as a function to `Option`). -/
abbrev AuthStore := String → Option AuthToken

def emptyStore : AuthStore := fun _ => none

/-! ## Token store file state (src/unnamed/part_001, lines 696-817)

The store is one JSON document at `AUTH_FILE` inside `HOME_DIR`. The model
tracks whether the directory exists and the file state: missing, present but
unparsable, or present with parsed content, each with its permission bits. -/

inductive FileState where
  | missing
  | corrupt (mode : Nat)
  | valid (content : AuthStore) (mode : Nat)

structure FsState where
  dirExists : Bool
  file : FileState

/-- Observable file-system side effects, in the order performed. -/
inductive FsEvent where
  | mkdirRecursive
  | createFile (mode : Nat)
  | writeFile (mode : Nat)
  | chmod (mode : Nat)
deriving DecidableEq, Repr

/-- `ensureAuthFile` (part_001 lines 708-723): `fs.mkdir(HOME_DIR, {recursive})`
(errors swallowed), then `fs.access(AUTH_FILE)`; if that fails the file is
created holding `{}` with mode `0o600`. -/
def ensureAuthFile (fs : FsState) : FsState × List FsEvent :=
  let fs1 : FsState := { fs with dirExists := true }
  match fs1.file with
  | .missing =>
      ({ fs1 with file := .valid emptyStore 0o600 }, [.mkdirRecursive, .createFile 0o600])
  | _ => (fs1, [.mkdirRecursive])

/-- The mapping an observer recovers from the file: `JSON.parse` of a valid
file, and the empty mapping when the file is missing or unparsable. -/
def parseFile : FileState → AuthStore
  | .valid c _ => c
  | _ => emptyStore

/-- `readStore` (part_001 lines 728-736): ensure the file, read and parse it;
any read/parse failure degrades to `{}`. -/
def readStore (fs : FsState) : FsState × AuthStore × List FsEvent :=
  let (fs1, ev) := ensureAuthFile fs
  (fs1, parseFile fs1.file, ev)

/-- `writeStore` (part_001 lines 741-748): ensure the file, serialize the whole
mapping with mode `0o600`, then `chmod 0o600` again to defend against platforms
that ignore the mode option. -/
def writeStore (store : AuthStore) (fs : FsState) : FsState × List FsEvent :=
  let (fs1, ev) := ensureAuthFile fs
  ({ fs1 with file := .valid store 0o600 }, ev ++ [.writeFile 0o600, .chmod 0o600])

/-- `getToken` (part_001 lines 753-756): `store[provider] || null`. -/
def getToken (provider : String) (fs : FsState) :
    FsState × Option AuthToken × List FsEvent :=
  let (fs1, store, ev) := readStore fs
  (fs1, store provider, ev)

/-- `saveToken` (part_001 lines 761-765): read, set the provider's entry,
write the whole mapping back. -/
def saveToken (provider : String) (token : AuthToken) (fs : FsState) :
    FsState × List FsEvent :=
  let (fs1, store, ev1) := readStore fs
  let store2 : AuthStore := fun q => if q = provider then some token else store q
  let (fs2, ev2) := writeStore store2 fs1
  (fs2, ev1 ++ ev2)

/-- `deleteToken` (part_001 lines 770-778): if the provider has no entry,
return `false` without writing; otherwise remove the entry, write the mapping
back and return `true`. -/
def deleteToken (provider : String) (fs : FsState) :
    FsState × Bool × List FsEvent :=
  let (fs1, store, ev1) := readStore fs
  if (store provider).isSome then
    let store2 : AuthStore := fun q => if q = provider then none else store q
    let (fs2, ev2) := writeStore store2 fs1
    (fs2, true, ev1 ++ ev2)
  else (fs1, false, ev1)

/-- `isTokenExpired` (part_001 lines 795-800): API keys never expire; an OAuth
token is expired when `Date.now() >= expires - bufferMs`, default buffer
60 000 ms. -/
def isTokenExpired (now : Int) (token : AuthToken) (bufferMs : Int := 60000) : Bool :=
  match token with
  | .api _ => false
  | .oauth d => decide (d.expires - bufferMs ≤ now)

/-! ## Token endpoint responses (types.ts `OAuthTokenResponse`)

Optional string fields that the source tests for JavaScript truthiness
(`data.error`, `data.access_token`, `refreshed.refresh_token`) are modelled as
plain strings defaulting to `""`; truthiness is inequality with `""`
(an absent JSON field and an empty string are both falsy). -/

structure OAuthTokenResponse where
  access_token : String := ""
  expires_in : Option Int := none
  refresh_token : String := ""
  error : String := ""
  error_description : String := ""
deriving DecidableEq, Repr

/-- Modelled from the spec: `calculateExpiry` is imported from `tokenStore`
by every refresh path, but its definition is not among the provided sources.
Scenario A fixes its value on a present `expires_in` ("expires: now+3600000"
for `expires_in:3600`): now plus `expires_in` seconds in milliseconds; sibling
inlined call sites (part_006 line 193, providers/anthropic.ts line 104) default
a missing `expires_in` to 3600 seconds. -/
def calculateExpiry (now : Int) (expiresIn : Option Int) : Int :=
  now + expiresIn.getD 3600 * 1000

/-! ## Device authorization poll loop (src/unnamed/part_004 lines 46-104,
identical logic in src/packages/shared/src/auth/oauth/deviceCode.ts lines
28-80)

The loop is driven by the sequence of token-endpoint responses. The only
time advancement is sleeping: `setTimeout(pollIntervalMs)` at the top of every
iteration and the extra fixed `setTimeout(5000)` on `slow_down`; the fetch
itself is modelled as instantaneous. The result carries the clock value at
exit, so the total wait is the exit clock minus the start clock. -/

inductive PollResult where
  | success (resp : OAuthTokenResponse)
  | expiredErr                 -- throw "Device code expired. Please try again."
  | deniedErr                  -- throw "Authorization denied by user."
  | oauthErr (e desc : String) -- throw "OAuth error: e - desc"
  | timedOut                   -- throw "Device code polling timed out."
  | starved                    -- model artifact: response sequence exhausted
deriving DecidableEq, Repr

def pollLoop (pollIntervalMs deadline : Int) :
    Int → List OAuthTokenResponse → PollResult × Int
  | now, [] =>
      if now < deadline then (.starved, now + pollIntervalMs) else (.timedOut, now)
  | now, data :: rest =>
      if now < deadline then
        let t := now + pollIntervalMs
        if data.error ≠ "" then
          if data.error = "authorization_pending" then
            pollLoop pollIntervalMs deadline t rest
          else if data.error = "slow_down" then
            pollLoop pollIntervalMs deadline (t + 5000) rest
          else if data.error = "expired_token" then (.expiredErr, t)
          else if data.error = "access_denied" then (.deniedErr, t)
          else (.oauthErr data.error data.error_description, t)
        else if data.access_token ≠ "" then (.success data, t)
        else pollLoop pollIntervalMs deadline t rest
      else (.timedOut, now)

/-- `pollForDeviceToken` (part_004 lines 46-104): interval and expiry are in
seconds (defaults 5 and 900); `deadline = Date.now() + expiresIn * 1000`.
Returns the outcome together with the total elapsed milliseconds. -/
def pollForDeviceToken (responses : List OAuthTokenResponse)
    (interval : Int := 5) (expiresIn : Int := 900) (start : Int := 0) :
    PollResult × Int :=
  let (r, t) := pollLoop (interval * 1000) (start + expiresIn * 1000) start responses
  (r, t - start)

/-! ## Refresh coordinator entry points (src/unnamed/part_005)

`getOAuthAccessToken` (lines 58-88) and `getValidToken` (lines 94-111) run
synchronously from the store read up to the decision whether to enter
`refreshAndSaveOAuthToken`; that synchronous prefix is captured here as a
pure decision function. -/

/-- Outcome of the synchronous prefix of `getOAuthAccessToken` (part_005
lines 58-81). -/
inductive GetTokenStep where
  | notAuthenticated            -- throw "Not authenticated with ..."
  | cached (access : String)    -- return token.access
  | expiredNoRefresh            -- throw "Token expired for ..."
  | refresh (d : OAuthTokenData) -- proceed into refreshAndSaveOAuthToken
deriving DecidableEq, Repr

def getOAuthAccessTokenStep (now : Int) (stored : Option AuthToken) : GetTokenStep :=
  match stored with
  | none => .notAuthenticated
  | some (.api _) => .notAuthenticated   -- token.type !== "oauth"
  | some (.oauth d) =>
      if !isTokenExpired now (.oauth d) then .cached d.access
      else if d.refresh = "" then .expiredNoRefresh
      else .refresh d

/-- Outcome of the synchronous prefix of `getValidToken` (part_005 lines
94-105). -/
inductive GetValidStep where
  | noToken                      -- return null
  | apiKey (key : String)        -- return token.key
  | cached (access : String)     -- return token.access
  | noRefresh                    -- return null
  | refresh (d : OAuthTokenData) -- proceed into refreshAndSaveOAuthToken
deriving DecidableEq, Repr

def getValidTokenStep (now : Int) (stored : Option AuthToken) : GetValidStep :=
  match stored with
  | none => .noToken
  | some (.api k) => .apiKey k
  | some (.oauth d) =>
      if !isTokenExpired now (.oauth d) then .cached d.access
      else if d.refresh = "" then .noRefresh
      else .refresh d

/-! ## Single-flight refresh machine (src/unnamed/part_005 lines 7-52)

`refreshAndSaveOAuthToken` keeps a module-level
`refreshingTokens : Map string (Promise OAuthToken)`. The function body runs
synchronously on the event loop from the map lookup through starting the inner
async closure — which issues the outbound refresh POST (`refreshAccessToken` →
`postOAuthForm` → `fetch`) before its first suspension — and the `map.set`.
So one caller's lookup/POST/set is one atomic block; a concurrent caller for
the same provider necessarily observes the map entry and joins that promise.

The machine below makes these atomic blocks explicit:
- `Ev.start i P now` — caller `i` runs `getOAuthAccessToken(P, config)` up to
  and including the synchronous prefix of `refreshAndSaveOAuthToken`;
- `Ev.deliver P resp now` — the token endpoint's response for `P`'s pending
  refresh arrives: the continuation builds the updated token, persists it,
  resolves every joined caller, and the `finally` clears the map entry.
`posts P` counts the outbound refresh POSTs to `P`'s token endpoint. -/

/-- The pure token update performed by `refreshAndSaveOAuthToken` (part_005
lines 40-45): spread the old token, overwrite `access`, keep the old refresh
token when the response carries none (`refreshed.refresh_token ||
token.refresh`), recompute `expires`. -/
def applyRefreshResponse (d : OAuthTokenData) (resp : OAuthTokenResponse)
    (now : Int) : OAuthTokenData :=
  { d with
    access := resp.access_token
    refresh := if resp.refresh_token ≠ "" then resp.refresh_token else d.refresh
    expires := calculateExpiry now resp.expires_in }

inductive CallerPhase where
  | idle
  | joined (opId : Nat)          -- awaiting the pending refresh promise
  | doneAccess (access : String) -- getOAuthAccessToken returned updatedToken.access
  | doneCached (access : String) -- returned the still-valid cached access
  | failedAuth                   -- "Not authenticated" thrown
  | failedExpired                -- "Token expired" thrown (no refresh token)
deriving DecidableEq, Repr

structure RefreshSystem where
  fs : FsState
  refreshing : String → Option Nat      -- the refreshingTokens map (op ids)
  opToken : Nat → Option OAuthTokenData -- token captured when the op started
  posts : String → Nat                  -- outbound refresh POSTs per provider
  nextOp : Nat
  callers : Fin 2 → CallerPhase

inductive Ev where
  | start (i : Fin 2) (P : String) (now : Int)
  | deliver (P : String) (resp : OAuthTokenResponse) (now : Int)

/-- One caller's synchronous block of `getOAuthAccessToken` (part_005 lines
58-81) including the map lookup / promise creation of
`refreshAndSaveOAuthToken` (lines 35-51). -/
def startCall (i : Fin 2) (P : String) (now : Int) (sys : RefreshSystem) :
    RefreshSystem :=
  let (fs1, stored, _) := getToken P sys.fs
  let sys := { sys with fs := fs1 }
  match getOAuthAccessTokenStep now stored with
  | .notAuthenticated => { sys with callers := Function.update sys.callers i .failedAuth }
  | .cached a => { sys with callers := Function.update sys.callers i (.doneCached a) }
  | .expiredNoRefresh => { sys with callers := Function.update sys.callers i .failedExpired }
  | .refresh d =>
      match sys.refreshing P with
      | some op =>   -- `const existing = refreshingTokens.get(...); if (existing) return existing`
          { sys with callers := Function.update sys.callers i (.joined op) }
      | none =>      -- create the promise: POST issued, then refreshingTokens.set
          { sys with
            refreshing := Function.update sys.refreshing P (some sys.nextOp)
            opToken := Function.update sys.opToken sys.nextOp (some d)
            posts := Function.update sys.posts P (sys.posts P + 1)
            nextOp := sys.nextOp + 1
            callers := Function.update sys.callers i (.joined sys.nextOp) }

/-- The continuation of the pending refresh for `P` once the token endpoint
responds (part_005 lines 39-48): build the updated token, `saveToken`, resolve
the promise (all joined callers return `updatedToken.access`), and the
`finally` deletes the map entry. -/
def deliverResponse (P : String) (resp : OAuthTokenResponse) (now : Int)
    (sys : RefreshSystem) : RefreshSystem :=
  match sys.refreshing P with
  | none => sys
  | some op =>
      match sys.opToken op with
      | none => sys
      | some d =>
          let updated := applyRefreshResponse d resp now
          let (fs1, _) := saveToken P (.oauth updated) sys.fs
          { sys with
            fs := fs1
            refreshing := Function.update sys.refreshing P none
            callers := fun j =>
              match sys.callers j with
              | .joined op2 => if op2 = op then .doneAccess updated.access else .joined op2
              | c => c }

def stepRefresh (sys : RefreshSystem) : Ev → RefreshSystem
  | .start i P now => startCall i P now sys
  | .deliver P resp now => deliverResponse P resp now sys

def runRefresh (sys : RefreshSystem) (evs : List Ev) : RefreshSystem :=
  evs.foldl stepRefresh sys

/-- Initial coordinator state over a given file state: no pending refreshes,
no POSTs issued, both callers idle. -/
def initRefreshSystem (fs : FsState) : RefreshSystem :=
  { fs := fs
    refreshing := fun _ => none
    opToken := fun _ => none
    posts := fun _ => 0
    nextOp := 0
    callers := fun _ => .idle }

/-! ## Authorization-code flow
(src/packages/shared/src/auth/oauth/authorizationCode.ts) -/

/-- `PKCEPair` from types.ts. -/
structure PKCEPair where
  codeVerifier : String
  codeChallenge : String
deriving DecidableEq, Repr

/-- `generatePKCE` (authorizationCode.ts lines 33-39): the verifier is 32
random bytes base64url-encoded (supplied here as `entropy`), the challenge its
SHA-256 digest base64url-encoded (`hash` abstracts the platform
`createHash("sha256")...digest("base64url")` pipeline, which is not repository
code). -/
def generatePKCE (hash : String → String) (entropy : String) : PKCEPair :=
  { codeVerifier := entropy, codeChallenge := hash entropy }

/-- The slice of `OAuthProviderConfig` (types.ts lines 29-47) that the
authorization-code flow reads. -/
structure OAuthProviderConfig where
  name : String
  clientId : String
  clientSecret : Option String := none
  scopes : List String := []
  authorizationUrl : Option String := none
  tokenUrl : String := ""
  callbackPort : Option Nat := none
  callbackPath : Option String := none
  callbackHost : Option String := none
  extraParams : List (String × String) := []
deriving DecidableEq, Repr

/-- Setting a key in a JavaScript object literal: an existing key keeps its
position and gets the new value, a new key is appended. -/
def setParam (ps : List (String × String)) (k v : String) : List (String × String) :=
  if ps.any (fun p => p.1 = k) then
    ps.map (fun p => if p.1 = k then (k, v) else p)
  else ps ++ [(k, v)]

def setParams (ps : List (String × String)) : List (String × String) → List (String × String)
  | [] => ps
  | (k, v) :: rest => setParams (setParam ps k v) rest

/-- The object literal passed to `URLSearchParams` in `startAuthCodeFlow`
(authorizationCode.ts lines 81-90): base OAuth parameters, then `scope` when
any scopes are configured, then the provider's `extraParams` spread last
(overriding on key collision, as JS spread does). -/
def authCodeParams (config : OAuthProviderConfig) (pkce : PKCEPair)
    (st redirectUri : String) : List (String × String) :=
  let base := [("client_id", config.clientId), ("response_type", "code"),
               ("redirect_uri", redirectUri), ("state", st),
               ("code_challenge", pkce.codeChallenge),
               ("code_challenge_method", "S256")]
  let withScope :=
    if config.scopes ≠ [] then
      setParam base "scope" (String.intercalate " " config.scopes)
    else base
  setParams withScope config.extraParams

/-- Query-string rendering; `URLSearchParams.toString` percent-encoding is
abstracted to the identity (all parameter values in these claims range over
the URL-safe base64url/hex alphabets). -/
def renderQuery (ps : List (String × String)) : String :=
  String.intercalate "&" (ps.map (fun p => p.1 ++ "=" ++ p.2))

/-- Default callback endpoint parts (authorizationCode.ts lines 76-79). -/
def callbackPortOf (config : OAuthProviderConfig) : Nat := config.callbackPort.getD 8085
def callbackPathOf (config : OAuthProviderConfig) : String := config.callbackPath.getD "/callback"
def callbackHostOf (config : OAuthProviderConfig) : String := config.callbackHost.getD "localhost"

def redirectUriOf (config : OAuthProviderConfig) : String :=
  "http://" ++ callbackHostOf config ++ ":" ++ toString (callbackPortOf config)
    ++ callbackPathOf config

/-- The authorization URL string built at authorizationCode.ts line 92. -/
def buildAuthUrl (config : OAuthProviderConfig) (pkce : PKCEPair) (st : String) : String :=
  config.authorizationUrl.getD "" ++ "?"
    ++ renderQuery (authCodeParams config pkce st (redirectUriOf config))

/-! ### Callback handler (authorizationCode.ts lines 102-139)

An inbound GET is its parsed URL: pathname plus the `code` / `state` /
`error` / `error_description` query parameters (absent ↦ `none`). -/

structure CallbackRequest where
  pathname : String
  code : Option String := none
  stateParam : Option String := none
  error : Option String := none
  error_description : Option String := none
deriving DecidableEq, Repr

/-- How the handler settles the pending flow for one request. -/
inductive CallbackOutcome where
  | notFound                    -- 404, wrong path; the flow stays pending
  | providerError (desc : String) -- reject "OAuth error: desc" (HTTP 200 page)
  | stateMismatch               -- reject "OAuth state mismatch" (HTTP 400 page)
  | missingCode                 -- reject "No authorization code received" (HTTP 400)
  | resolved (code : String)    -- resolve the callback promise with the code
deriving DecidableEq, Repr

/-- The request handler closure of `createServer`: provider `error` first
(JS truthiness: an empty string is falsy), then the exact-equality check
`returnedState !== state`, then presence of `code`. -/
def handleCallback (callbackPath expected : String) (req : CallbackRequest) :
    CallbackOutcome :=
  if req.pathname = callbackPath then
    if req.error.getD "" ≠ "" then
      .providerError
        (if req.error_description.getD "" ≠ "" then req.error_description.getD ""
         else req.error.getD "")
    else if req.stateParam ≠ some expected then .stateMismatch
    else
      match req.code with
      | some c => if c ≠ "" then .resolved c else .missingCode
      | none => .missingCode
  else .notFound

/-- The message of the `Error` the handler rejects with, when it rejects. -/
def callbackErrorMessage : CallbackOutcome → Option String
  | .providerError desc => some ("OAuth error: " ++ desc)
  | .stateMismatch => some "OAuth state mismatch"
  | .missingCode => some "No authorization code received"
  | _ => none

/-- `waitForAuth` (authorizationCode.ts lines 194-207) runs
`exchangeCodeForToken` only after `waitForCallback()` has resolved with a
code; every rejection propagates before the exchange is reached. -/
def exchangeAttempted : CallbackOutcome → Bool
  | .resolved _ => true
  | _ => false

/-! ### Active-flow table (authorizationCode.ts lines 11-31, 45-167)

`activeFlows : Map string ActiveFlow` is module-level. Servers and
callback-promise handles are identified by `serverId`; `listening` models
`server.listening` (whether the socket is still accepting). `FlowAction`
records the externally visible listener lifecycle in order, so "torn down
before a replacement is created" and "does not bind a second listener" are
statements about the emitted action list. The idle-timeout bookkeeping
(`clearTimeout`/`setTimeout` pairs) has no bearing on these claims and is not
tracked. -/

structure ActiveFlow where
  serverId : Nat
  listening : Bool
  authUrl : String
  pkce : PKCEPair
  expectedState : String
deriving DecidableEq, Repr

structure FlowSystem where
  activeFlows : String → Option ActiveFlow
  nextServerId : Nat
  bindCount : Nat          -- total listeners ever bound

inductive FlowAction where
  | closeServer (id : Nat)
  | bindListener (id : Nat)
deriving DecidableEq, Repr

/-- `cleanupFlow` (lines 24-31): clear the timeout, close the flow's server,
drop the map entry. -/
def cleanupFlow (P : String) (sys : FlowSystem) : FlowSystem × List FlowAction :=
  match sys.activeFlows P with
  | some f =>
      ({ sys with activeFlows := Function.update sys.activeFlows P none },
       [.closeServer f.serverId])
  | none => (sys, [])

/-- What `startAuthCodeFlow` returns to its caller: the authorization URL, the
pending-result handle (`waitForCallback` of the flow, identified by the flow's
server id), and the PKCE pair actually bound to the flow. -/
structure StartResult where
  authUrl : String
  handleId : Nat
  pkce : PKCEPair
deriving DecidableEq, Repr

/-- `startAuthCodeFlow` (lines 45-167). `none` models the throws (missing
`authorizationUrl`; the EADDRINUSE path is not modelled — the bind always
succeeds here). The reuse branch (lines 60-70) returns the stored flow
untouched; otherwise a stale entry is cleaned up (lines 72-74) and a fresh
flow is built, bound and registered (lines 76-166). -/
def startAuthCodeFlow (config : OAuthProviderConfig) (pkce : PKCEPair)
    (st : String) (sys : FlowSystem) :
    Option StartResult × FlowSystem × List FlowAction :=
  if config.authorizationUrl = none then (none, sys, [])
  else
    match sys.activeFlows config.name with
    | some f =>
        if f.listening then
          (some ⟨f.authUrl, f.serverId, f.pkce⟩, sys, [])
        else
          let (sys1, acts) := cleanupFlow config.name sys
          startFresh sys1 acts
    | none => startFresh sys []
where
  startFresh (sys1 : FlowSystem) (acts : List FlowAction) :
      Option StartResult × FlowSystem × List FlowAction :=
    let authUrl := buildAuthUrl config pkce st
    let sid := sys1.nextServerId
    let flow : ActiveFlow :=
      { serverId := sid, listening := true, authUrl := authUrl
        pkce := pkce, expectedState := st }
    (some ⟨authUrl, sid, pkce⟩,
     { activeFlows := Function.update sys1.activeFlows config.name (some flow)
       nextServerId := sid + 1
       bindCount := sys1.bindCount + 1 },
     acts ++ [.bindListener sid])

/-- What `startAuthCodeLogin` returns: the URL to open and, via its
`waitForAuth` closure, the code verifier that will be passed to
`exchangeCodeForToken` (`activePkce.codeVerifier`, line 196). -/
structure LoginResult where
  authUrl : String
  handleId : Nat
  exchangeVerifier : String
deriving DecidableEq, Repr

/-- `startAuthCodeLogin` (lines 173-210): generate a fresh PKCE pair from
`entropy` and a fresh state from `stateRand`, run `startAuthCodeFlow`, and
close over the *returned* pkce (`activePkce`) for the eventual exchange. -/
def startAuthCodeLogin (hash : String → String) (config : OAuthProviderConfig)
    (entropy stateRand : String) (sys : FlowSystem) :
    Option LoginResult × FlowSystem × List FlowAction :=
  let pkce := generatePKCE hash entropy
  match startAuthCodeFlow config pkce stateRand sys with
  | (some r, sys1, acts) =>
      (some ⟨r.authUrl, r.handleId, r.pkce.codeVerifier⟩, sys1, acts)
  | (none, sys1, acts) => (none, sys1, acts)

/-- A flow table with no entry for any provider. -/
def initFlowSystem : FlowSystem :=
  { activeFlows := fun _ => none, nextServerId := 0, bindCount := 0 }

/-! ## Helper lemmas -/

/-- Setting a different key preserves membership of a binding. -/
theorem mem_setParam_of_ne {ps : List (String × String)} {k v : String} (k1 v1 : String)
    (h : (k, v) ∈ ps) (hne : k ≠ k1) : (k, v) ∈ setParam ps k1 v1 := by
  unfold setParam
  by_cases hb : ps.any (fun p => p.1 = k1)
  · simp only [hb, if_pos]
    have := List.mem_map_of_mem (fun p => if p.1 = k1 then (k1, v1) else p) h
    simpa [hne] using this
  · simp only [hb, if_neg]
    exact List.mem_append_left _ h

/-- Spreading updates none of whose keys is `k` preserves a `k`-binding. -/
theorem mem_setParams_of_ne {k v : String} (us : List (String × String)) :
    ∀ ps : List (String × String), (k, v) ∈ ps → (∀ p ∈ us, p.1 ≠ k) →
    (k, v) ∈ setParams ps us := by
  induction us with
  | nil => intro ps h _; exact h
  | cons u rest ih =>
      intro ps h hus
      obtain ⟨k1, v1⟩ := u
      refine ih _ (mem_setParam_of_ne k1 v1 h ?_) (fun p hp => hus p (List.mem_cons_of_mem _ hp))
      have := hus (k1, v1) (List.mem_cons_self _ _)
      exact fun hk => this (by simp [hk])

/-- The PKCE challenge is among the authorization-URL query parameters whenever
the provider's `extraParams` do not shadow the `code_challenge` key. -/
theorem code_challenge_mem_params (config : OAuthProviderConfig) (pkce : PKCEPair) (st : String)
    (hep : ∀ p ∈ config.extraParams, p.1 ≠ "code_challenge") :
    ("code_challenge", pkce.codeChallenge)
      ∈ authCodeParams config pkce st (redirectUriOf config) := by
  unfold authCodeParams
  refine mem_setParams_of_ne _ _ ?_ hep
  rcases eq_or_ne config.scopes [] with hs | hs
  · simp [hs]
  · rw [if_pos hs]
    exact mem_setParam_of_ne _ _ (by simp) (by decide)

/-! ## Claims -/

/-- C1: with a stored expired OAuth credential for provider `P`, two callers
that both enter `getOAuthAccessToken` while the refresh is outstanding (both
`start` events precede the token endpoint's response) cause exactly one
outbound refresh POST for `P`, and both observe the access value of that one
refresh attempt (`resp.access_token`). -/
theorem c1_single_flight_refresh (P : String) (d : OAuthTokenData) (store0 : AuthStore)
    (dir : Bool) (mode : Nat) (i j : Fin 2) (t1 t2 t3 : Int)
    (resp : OAuthTokenResponse)
    (hij : i ≠ j)
    (hstore : store0 P = some (.oauth d))
    (hrefresh : d.refresh ≠ "")
    (hexp1 : isTokenExpired t1 (.oauth d) = true)
    (hexp2 : isTokenExpired t2 (.oauth d) = true) :
    (runRefresh (initRefreshSystem ⟨dir, .valid store0 mode⟩)
        [.start i P t1, .start j P t2, .deliver P resp t3]).posts P = 1 ∧
    (runRefresh (initRefreshSystem ⟨dir, .valid store0 mode⟩)
        [.start i P t1, .start j P t2, .deliver P resp t3]).callers i
      = .doneAccess resp.access_token ∧
    (runRefresh (initRefreshSystem ⟨dir, .valid store0 mode⟩)
        [.start i P t1, .start j P t2, .deliver P resp t3]).callers j
      = .doneAccess resp.access_token := by
  refine ⟨?_, ?_, ?_⟩ <;>
    simp [runRefresh, stepRefresh, startCall, deliverResponse, getToken, readStore,
          ensureAuthFile, parseFile, initRefreshSystem, hstore,
          getOAuthAccessTokenStep, hexp1, hexp2, hrefresh, applyRefreshResponse,
          saveToken, writeStore, Function.update_same, Function.update_noteq hij,
          Function.update_noteq (Ne.symm hij), hij]

/-- C1 witness: concrete two-caller run for provider "codex". -/
theorem c1_single_flight_refresh_witness :
    (runRefresh (initRefreshSystem ⟨true,
        .valid (fun q => if q = "codex" then
          some (.oauth { access := "a1", refresh := "rtok", expires := 1000 }) else none)
        0o600⟩)
        [.start 0 "codex" 0, .start 1 "codex" 0,
         .deliver "codex" { access_token := "atok2", expires_in := some 3600 } 7]).posts "codex"
      = 1 ∧
    (runRefresh (initRefreshSystem ⟨true,
        .valid (fun q => if q = "codex" then
          some (.oauth { access := "a1", refresh := "rtok", expires := 1000 }) else none)
        0o600⟩)
        [.start 0 "codex" 0, .start 1 "codex" 0,
         .deliver "codex" { access_token := "atok2", expires_in := some 3600 } 7]).callers 0
      = .doneAccess "atok2" ∧
    (runRefresh (initRefreshSystem ⟨true,
        .valid (fun q => if q = "codex" then
          some (.oauth { access := "a1", refresh := "rtok", expires := 1000 }) else none)
        0o600⟩)
        [.start 0 "codex" 0, .start 1 "codex" 0,
         .deliver "codex" { access_token := "atok2", expires_in := some 3600 } 7]).callers 1
      = .doneAccess "atok2" :=
  c1_single_flight_refresh "codex" { access := "a1", refresh := "rtok", expires := 1000 }
    (fun q => if q = "codex" then
      some (.oauth { access := "a1", refresh := "rtok", expires := 1000 }) else none)
    true 0o600 0 1 0 0 7 { access_token := "atok2", expires_in := some 3600 }
    (by decide) (by decide) (by decide) (by decide) (by decide)

/-- C2 counterexample: on the device-poll sequence `[authorization_pending,
authorization_pending, access_token "tok"]` with a 5-second interval, the loop
does return `"tok"` but after a total wait of 15 000 ms — not the claimed
≈10 000 ms — because it sleeps the interval before every attempt, the first
included. -/
theorem c2_poll_wait_counterexample :
    pollForDeviceToken
      [{ error := "authorization_pending" }, { error := "authorization_pending" },
       { access_token := "tok" }] 5 900 0
      = (.success { access_token := "tok" }, 15000) ∧ (15000 : Int) ≠ 10000 :=
  ⟨by decide, by decide⟩

/-- C2 (amended): `pollForDeviceToken`, with poll interval 5 s and responses
`authorization_pending`, `authorization_pending`, then one carrying
`access_token "tok"`, returns `"tok"` after a total wait of 15 s, having slept
the 5-second interval before each of the three attempts. -/
theorem c2_poll_scenario_wait :
    pollForDeviceToken
      [{ error := "authorization_pending" }, { error := "authorization_pending" },
       { access_token := "tok" }] 5 900 0
      = (.success { access_token := "tok" }, 15000) := by
  decide

/-- C3 counterexample: a stored OAuth credential with `expires = now + 30 s`
but an empty refresh value is treated as expired, yet the getter throws the
"Token expired" error instead of proceeding to a refresh attempt. -/
theorem c3_no_refresh_counterexample :
    isTokenExpired 0 (.oauth { access := "a", refresh := "", expires := 30000 }) = true ∧
    getOAuthAccessTokenStep 0 (some (.oauth { access := "a", refresh := "", expires := 30000 }))
      = .expiredNoRefresh :=
  ⟨by decide, by decide⟩

/-- C3 (amended): every stored OAuth credential with `expires = now + 30 s` is
treated as expired under the 60-second buffer and the cached access value is
never returned; the getter proceeds to a refresh attempt when a refresh token
is stored, and fails with the re-login error when the stored refresh value is
empty. -/
theorem c3_expiry_buffer (now : Int) (d : OAuthTokenData)
    (hexp : d.expires = now + 30000) :
    isTokenExpired now (.oauth d) = true ∧
    (∀ a, getOAuthAccessTokenStep now (some (.oauth d)) ≠ .cached a) ∧
    (d.refresh ≠ "" → getOAuthAccessTokenStep now (some (.oauth d)) = .refresh d) ∧
    (d.refresh = "" → getOAuthAccessTokenStep now (some (.oauth d)) = .expiredNoRefresh) := by
  have h1 : isTokenExpired now (.oauth d) = true := by
    simp [isTokenExpired, hexp]
  refine ⟨h1, ?_, ?_, ?_⟩
  · intro a
    by_cases hr : d.refresh = "" <;> simp [getOAuthAccessTokenStep, h1, hr]
  · intro hr
    simp [getOAuthAccessTokenStep, h1, hr]
  · intro hr
    simp [getOAuthAccessTokenStep, h1, hr]

/-- C3 witness: a credential expiring 30 s from now, with a refresh token,
enters the refresh branch. -/
theorem c3_expiry_buffer_witness :
    isTokenExpired 0 (.oauth { access := "a", refresh := "r", expires := 30000 }) = true ∧
    getOAuthAccessTokenStep 0 (some (.oauth { access := "a", refresh := "r", expires := 30000 }))
      = .refresh { access := "a", refresh := "r", expires := 30000 } :=
  ⟨(c3_expiry_buffer 0 { access := "a", refresh := "r", expires := 30000 } (by decide)).1,
   (c3_expiry_buffer 0 { access := "a", refresh := "r", expires := 30000 } (by decide)).2.2.1
     (by decide)⟩

/-- C4 counterexample: for a stored API-key credential, the null-returning
variant does return the key, but the throwing getter `getOAuthAccessToken`
rejects it with the "Not authenticated" branch (it accepts only
`type === "oauth"` credentials) instead of returning the key. -/
theorem c4_api_key_counterexample :
    getValidTokenStep 0 (some (.api "k")) = .apiKey "k" ∧
    getOAuthAccessTokenStep 0 (some (.api "k")) = .notAuthenticated :=
  ⟨rfl, rfl⟩

/-- C4 (amended): for every stored API-key credential, the null-returning
variant `getValidToken` returns the stored key unconditionally and attempts no
refresh, while the throwing getter `getOAuthAccessToken` fails with its
not-authenticated error for API-key credentials because it accepts only OAuth
credentials. -/
theorem c4_api_key_getters (key : String) (now : Int) :
    getValidTokenStep now (some (.api key)) = .apiKey key ∧
    getOAuthAccessTokenStep now (some (.api key)) = .notAuthenticated :=
  ⟨rfl, rfl⟩

/-- C5: a refresh for a provider whose stored refresh token is "rtok", on
response `{access_token:"atok2", expires_in:3600}` with no `refresh_token`,
persists `{access:"atok2", refresh:"rtok", expires: now+3600000}` — the old
refresh token is reused and the expiry is now plus `expires_in` seconds in
milliseconds (`calculateExpiry` is modelled from the spec, see its doc). -/
theorem c5_refresh_persists (P : String) (d : OAuthTokenData) (store0 : AuthStore)
    (dir : Bool) (mode : Nat) (i : Fin 2) (t1 t2 : Int)
    (hstore : store0 P = some (.oauth d))
    (hrt : d.refresh = "rtok")
    (hexp : isTokenExpired t1 (.oauth d) = true) :
    parseFile (runRefresh (initRefreshSystem ⟨dir, .valid store0 mode⟩)
        [.start i P t1,
         .deliver P { access_token := "atok2", expires_in := some 3600 } t2]).fs.file P =
      some (.oauth { access := "atok2", refresh := "rtok",
                     expires := t2 + 3600000, accountId := d.accountId }) := by
  have hr : d.refresh ≠ "" := by rw [hrt]; decide
  simp [runRefresh, stepRefresh, startCall, deliverResponse, getToken, readStore,
        ensureAuthFile, parseFile, initRefreshSystem, hstore,
        getOAuthAccessTokenStep, hexp, hr, applyRefreshResponse, calculateExpiry,
        saveToken, writeStore, Function.update_same, hrt]

/-- C5 witness: concrete refresh for "codex" delivered at t = 5. -/
theorem c5_refresh_persists_witness :
    parseFile (runRefresh (initRefreshSystem ⟨true,
        .valid (fun q => if q = "codex" then
          some (.oauth { access := "a1", refresh := "rtok", expires := 1000 }) else none)
        0o600⟩)
        [.start 0 "codex" 0,
         .deliver "codex" { access_token := "atok2", expires_in := some 3600 } 5]).fs.file
      "codex"
      = some (.oauth { access := "atok2", refresh := "rtok", expires := 3600005 }) :=
  c5_refresh_persists "codex" { access := "a1", refresh := "rtok", expires := 1000 }
    (fun q => if q = "codex" then
      some (.oauth { access := "a1", refresh := "rtok", expires := 1000 }) else none)
    true 0o600 0 0 5 (by decide) rfl (by decide)

/-- C6 counterexample: a callback on the configured path whose `state` differs
from the expected value but which also carries an `error` parameter is
rejected by the provider-error branch (its message has the provider-error
shape), not by the state-mismatch branch — the handler checks `error` first. -/
theorem c6_error_param_counterexample :
    handleCallback "/callback" "S"
      { pathname := "/callback", stateParam := some "X", error := some "access_denied" }
      = .providerError "access_denied" ∧
    CallbackOutcome.providerError "access_denied" ≠ .stateMismatch ∧
    callbackErrorMessage (.providerError "access_denied")
      = some "OAuth error: access_denied" :=
  ⟨by decide, by decide, by decide⟩

/-- C6 (amended): every callback GET on the configured path that carries no
(truthy) `error` parameter and whose `state` differs from the expected value
fails with the state-mismatch rejection, whose message "OAuth state mismatch"
is distinct from every provider-error message "OAuth error: ...", and the code
exchange is never attempted for that callback. -/
theorem c6_state_mismatch_rejection (cbPath expected : String) (req : CallbackRequest)
    (hpath : req.pathname = cbPath)
    (herr : req.error.getD "" = "")
    (hst : req.stateParam ≠ some expected) :
    handleCallback cbPath expected req = .stateMismatch ∧
    callbackErrorMessage (handleCallback cbPath expected req) = some "OAuth state mismatch" ∧
    (∀ desc, ("OAuth error: " ++ desc) ≠ "OAuth state mismatch") ∧
    exchangeAttempted (handleCallback cbPath expected req) = false := by
  have h1 : handleCallback cbPath expected req = .stateMismatch := by
    simp [handleCallback, hpath, herr, hst]
  refine ⟨h1, by rw [h1]; rfl, ?_, by rw [h1]; rfl⟩
  intro desc h
  have hd : ("OAuth error: ").data ++ desc.data = ("OAuth state mismatch").data := by
    rw [← String.data_append, h]
  have h13 : (("OAuth error: ").data ++ desc.data).take 13 = ("OAuth error: ").data := by
    have hl : ("OAuth error: ").data.length = 13 := by decide
    rw [← hl, List.take_left]
  rw [hd] at h13
  exact absurd h13 (by decide)

/-- C6 witness: a clean callback with the wrong `state` is rejected as a
mismatch and no exchange happens. -/
theorem c6_state_mismatch_rejection_witness :
    handleCallback "/callback" "S"
      { pathname := "/callback", code := some "abc", stateParam := some "X" }
      = .stateMismatch ∧
    exchangeAttempted (handleCallback "/callback" "S"
      { pathname := "/callback", code := some "abc", stateParam := some "X" }) = false :=
  ⟨(c6_state_mismatch_rejection "/callback" "S"
      { pathname := "/callback", code := some "abc", stateParam := some "X" }
      rfl rfl (by decide)).1,
   (c6_state_mismatch_rejection "/callback" "S"
      { pathname := "/callback", code := some "abc", stateParam := some "X" }
      rfl rfl (by decide)).2.2.2⟩

/-- C7: starting an authorization-code flow for a provider with no active flow
registers one, and a second start while that flow's server is listening
returns the identical authorization URL and the same pending-result handle,
emits no listener action and leaves the flow table unchanged; no other
provider's entry is touched; and a start over an existing non-listening flow
closes the stale server strictly before binding the replacement listener. -/
theorem c7_flow_reuse (config : OAuthProviderConfig) (u : String)
    (pkce1 pkce2 : PKCEPair) (st1 st2 : String) (sys sysB : FlowSystem) (fB : ActiveFlow)
    (hauth : config.authorizationUrl = some u)
    (h0 : sys.activeFlows config.name = none)
    (hB : sysB.activeFlows config.name = some fB)
    (hBl : fB.listening = false) :
    (startAuthCodeFlow config pkce1 st1 sys).1
      = some ⟨buildAuthUrl config pkce1 st1, sys.nextServerId, pkce1⟩ ∧
    (startAuthCodeFlow config pkce2 st2 (startAuthCodeFlow config pkce1 st1 sys).2.1).1
      = (startAuthCodeFlow config pkce1 st1 sys).1 ∧
    (startAuthCodeFlow config pkce2 st2 (startAuthCodeFlow config pkce1 st1 sys).2.1).2.2
      = [] ∧
    (startAuthCodeFlow config pkce2 st2 (startAuthCodeFlow config pkce1 st1 sys).2.1).2.1
      = (startAuthCodeFlow config pkce1 st1 sys).2.1 ∧
    (∀ Q, Q ≠ config.name →
      (startAuthCodeFlow config pkce1 st1 sys).2.1.activeFlows Q = sys.activeFlows Q) ∧
    (startAuthCodeFlow config pkce1 st1 sysB).2.2
      = [.closeServer fB.serverId, .bindListener sysB.nextServerId] := by
  have hne : ¬ config.authorizationUrl = none := by simp [hauth]
  refine ⟨?_, ?_, ?_, ?_, ?_, ?_⟩
  · simp [startAuthCodeFlow, startAuthCodeFlow.startFresh, hne, h0]
  · simp [startAuthCodeFlow, startAuthCodeFlow.startFresh, hne, h0, Function.update_same]
  · simp [startAuthCodeFlow, startAuthCodeFlow.startFresh, hne, h0, Function.update_same]
  · simp [startAuthCodeFlow, startAuthCodeFlow.startFresh, hne, h0, Function.update_same]
  · intro Q hQ
    simp [startAuthCodeFlow, startAuthCodeFlow.startFresh, hne, h0, Function.update_noteq hQ]
  · simp [startAuthCodeFlow, startAuthCodeFlow.startFresh, cleanupFlow, hne, hB, hBl]

/-- C7 witness: a concrete double start for "codex" reuses the flow, and a
stale non-listening flow is closed before its replacement's listener binds. -/
theorem c7_flow_reuse_witness :
    (startAuthCodeFlow
        { name := "codex", clientId := "c", authorizationUrl := some "https://auth" }
        ⟨"v1", "c1"⟩ "s1" initFlowSystem).1
      = some ⟨buildAuthUrl
          { name := "codex", clientId := "c", authorizationUrl := some "https://auth" }
          ⟨"v1", "c1"⟩ "s1", 0, ⟨"v1", "c1"⟩⟩ ∧
    (startAuthCodeFlow
        { name := "codex", clientId := "c", authorizationUrl := some "https://auth" }
        ⟨"v2", "c2"⟩ "s2"
        (startAuthCodeFlow
          { name := "codex", clientId := "c", authorizationUrl := some "https://auth" }
          ⟨"v1", "c1"⟩ "s1" initFlowSystem).2.1).1
      = (startAuthCodeFlow
          { name := "codex", clientId := "c", authorizationUrl := some "https://auth" }
          ⟨"v1", "c1"⟩ "s1" initFlowSystem).1 ∧
    (startAuthCodeFlow
        { name := "codex", clientId := "c", authorizationUrl := some "https://auth" }
        ⟨"v2", "c2"⟩ "s2"
        (startAuthCodeFlow
          { name := "codex", clientId := "c", authorizationUrl := some "https://auth" }
          ⟨"v1", "c1"⟩ "s1" initFlowSystem).2.1).2.2
      = [] ∧
    (startAuthCodeFlow
        { name := "codex", clientId := "c", authorizationUrl := some "https://auth" }
        ⟨"v1", "c1"⟩ "s1"
        { activeFlows := fun q => if q = "codex" then
            some { serverId := 2, listening := false, authUrl := "u",
                   pkce := ⟨"v0", "c0"⟩, expectedState := "s0" } else none
          nextServerId := 3, bindCount := 1 }).2.2
      = [.closeServer 2, .bindListener 3] := by
  have h := c7_flow_reuse
    { name := "codex", clientId := "c", authorizationUrl := some "https://auth" }
    "https://auth" ⟨"v1", "c1"⟩ ⟨"v2", "c2"⟩ "s1" "s2" initFlowSystem
    { activeFlows := fun q => if q = "codex" then
        some { serverId := 2, listening := false, authUrl := "u",
               pkce := ⟨"v0", "c0"⟩, expectedState := "s0" } else none
      nextServerId := 3, bindCount := 1 }
    { serverId := 2, listening := false, authUrl := "u",
      pkce := ⟨"v0", "c0"⟩, expectedState := "s0" }
    rfl rfl (by simp) rfl
  refine ⟨h.1, h.2.1, h.2.2.1, ?_⟩
  have h6 := h.2.2.2.2.2
  exact h6

/-- C8: `getToken` on a missing or unparsable store file returns `none` for
every provider (never raising); when the file was missing, the call also
creates the containing directory and an empty store file with owner-only
`0o600` permissions as a side effect. -/
theorem c8_get_on_missing_store (provider : String) (d : Bool) (mode : Nat) :
    (getToken provider ⟨d, .missing⟩).2.1 = none ∧
    (getToken provider ⟨d, .corrupt mode⟩).2.1 = none ∧
    (getToken provider ⟨d, .missing⟩).1.dirExists = true ∧
    (getToken provider ⟨d, .missing⟩).1.file = .valid emptyStore 0o600 ∧
    (getToken provider ⟨d, .missing⟩).2.2 = [.mkdirRecursive, .createFile 0o600] :=
  ⟨rfl, rfl, rfl, rfl, rfl⟩

/-- C9: `deleteToken P` on a store without an entry for `P` returns `false`,
performs no store write (no `writeFile` event) and leaves the persisted
mapping pointwise unchanged; on a store with an entry for `P` it returns
`true` and the persisted mapping equals the previous one with exactly `P`'s
entry removed. -/
theorem c9_delete_token (provider : String) (fs : FsState) :
    (parseFile fs.file provider = none →
        (deleteToken provider fs).2.1 = false ∧
        (∀ m, FsEvent.writeFile m ∉ (deleteToken provider fs).2.2) ∧
        (∀ q, parseFile (deleteToken provider fs).1.file q = parseFile fs.file q)) ∧
    (∀ t, parseFile fs.file provider = some t →
        (deleteToken provider fs).2.1 = true ∧
        (∀ q, parseFile (deleteToken provider fs).1.file q =
          if q = provider then none else parseFile fs.file q)) := by
  obtain ⟨d, f⟩ := fs
  cases f with
  | missing =>
      refine ⟨fun _ => ⟨rfl, ?_, fun q => rfl⟩,
              fun t ht => absurd ht (by simp [parseFile, emptyStore])⟩
      intro m
      simp [deleteToken, readStore, ensureAuthFile, parseFile, emptyStore]
  | corrupt mode =>
      refine ⟨fun _ => ⟨rfl, ?_, fun q => rfl⟩,
              fun t ht => absurd ht (by simp [parseFile, emptyStore])⟩
      intro m
      simp [deleteToken, readStore, ensureAuthFile, parseFile, emptyStore]
  | valid c mode =>
      constructor
      · intro hnone
        simp only [parseFile] at hnone
        refine ⟨?_, ?_, ?_⟩
        · simp [deleteToken, readStore, ensureAuthFile, parseFile, hnone]
        · intro m
          simp [deleteToken, readStore, ensureAuthFile, parseFile, hnone]
        · intro q
          simp [deleteToken, readStore, ensureAuthFile, parseFile, hnone]
      · intro t ht
        simp only [parseFile] at ht
        refine ⟨?_, ?_⟩
        · simp [deleteToken, readStore, ensureAuthFile, parseFile, ht]
        · intro q
          simp [deleteToken, readStore, ensureAuthFile, parseFile, writeStore, ht]

/-- C9 witness: deleting "codex" from an empty (missing-file) store returns
`false`; deleting it from a store that also holds "gemini" returns `true`,
removes only "codex" and keeps "gemini". -/
theorem c9_delete_token_witness :
    (deleteToken "codex" ⟨false, .missing⟩).2.1 = false ∧
    (deleteToken "codex" ⟨true,
        .valid (fun q => if q = "codex" then some (.api "k1")
                else if q = "gemini" then some (.api "k2") else none) 0o600⟩).2.1 = true ∧
    parseFile (deleteToken "codex" ⟨true,
        .valid (fun q => if q = "codex" then some (.api "k1")
                else if q = "gemini" then some (.api "k2") else none) 0o600⟩).1.file
      "codex" = none ∧
    parseFile (deleteToken "codex" ⟨true,
        .valid (fun q => if q = "codex" then some (.api "k1")
                else if q = "gemini" then some (.api "k2") else none) 0o600⟩).1.file
      "gemini" = some (.api "k2") := by
  refine ⟨((c9_delete_token "codex" ⟨false, .missing⟩).1 rfl).1, ?_, ?_, ?_⟩
  · exact ((c9_delete_token "codex" ⟨true,
      .valid (fun q => if q = "codex" then some (.api "k1")
              else if q = "gemini" then some (.api "k2") else none) 0o600⟩).2
      (.api "k1") (by decide)).1
  · have := ((c9_delete_token "codex" ⟨true,
      .valid (fun q => if q = "codex" then some (.api "k1")
              else if q = "gemini" then some (.api "k2") else none) 0o600⟩).2
      (.api "k1") (by decide)).2 "codex"
    simpa using this
  · have := ((c9_delete_token "codex" ⟨true,
      .valid (fun q => if q = "codex" then some (.api "k1")
              else if q = "gemini" then some (.api "k2") else none) 0o600⟩).2
      (.api "k1") (by decide)).2 "gemini"
    simpa using this

/-- C10: when a second `startAuthCodeLogin` for the same provider reuses the
flow that is still awaiting its callback, the second call's freshly generated
PKCE pair and state are discarded: both calls return the first flow's
authorization URL, the verifier closed over for the eventual code exchange is
the first call's `e1`, and the challenge `hash e1` of exactly that verifier is
the `code_challenge` parameter of the served authorization URL. -/
theorem c10_reuse_exchange_verifier (hash : String → String)
    (config : OAuthProviderConfig) (u : String)
    (e1 s1 e2 s2 : String) (sys : FlowSystem)
    (hauth : config.authorizationUrl = some u)
    (h0 : sys.activeFlows config.name = none)
    (hep : ∀ p ∈ config.extraParams, p.1 ≠ "code_challenge") :
    (startAuthCodeLogin hash config e1 s1 sys).1
      = some ⟨buildAuthUrl config (generatePKCE hash e1) s1, sys.nextServerId, e1⟩ ∧
    (startAuthCodeLogin hash config e2 s2 (startAuthCodeLogin hash config e1 s1 sys).2.1).1
      = (startAuthCodeLogin hash config e1 s1 sys).1 ∧
    ("code_challenge", hash e1)
      ∈ authCodeParams config (generatePKCE hash e1) s1 (redirectUriOf config) := by
  have hne : ¬ config.authorizationUrl = none := by simp [hauth]
  refine ⟨?_, ?_, ?_⟩
  · simp [startAuthCodeLogin, startAuthCodeFlow, startAuthCodeFlow.startFresh, hne, h0,
          generatePKCE]
  · simp [startAuthCodeLogin, startAuthCodeFlow, startAuthCodeFlow.startFresh, hne, h0,
          Function.update_same, generatePKCE]
  · have := code_challenge_mem_params config (generatePKCE hash e1) s1 hep
    simpa [generatePKCE] using this

/-- C10 witness: concrete double login for "codex" under a stand-in hash. -/
theorem c10_reuse_exchange_verifier_witness :
    (startAuthCodeLogin (fun s => s ++ "#h")
        { name := "codex", clientId := "c", authorizationUrl := some "https://auth" }
        "v1" "s1" initFlowSystem).1
      = some ⟨buildAuthUrl
          { name := "codex", clientId := "c", authorizationUrl := some "https://auth" }
          (generatePKCE (fun s => s ++ "#h") "v1") "s1", 0, "v1"⟩ ∧
    (startAuthCodeLogin (fun s => s ++ "#h")
        { name := "codex", clientId := "c", authorizationUrl := some "https://auth" }
        "v2" "s2"
        (startAuthCodeLogin (fun s => s ++ "#h")
          { name := "codex", clientId := "c", authorizationUrl := some "https://auth" }
          "v1" "s1" initFlowSystem).2.1).1
      = (startAuthCodeLogin (fun s => s ++ "#h")
          { name := "codex", clientId := "c", authorizationUrl := some "https://auth" }
          "v1" "s1" initFlowSystem).1 ∧
    ("code_challenge", "v1" ++ "#h")
      ∈ authCodeParams
          { name := "codex", clientId := "c", authorizationUrl := some "https://auth" }
          (generatePKCE (fun s => s ++ "#h") "v1") "s1"
          (redirectUriOf
            { name := "codex", clientId := "c", authorizationUrl := some "https://auth" }) :=
  c10_reuse_exchange_verifier (fun s => s ++ "#h")
    { name := "codex", clientId := "c", authorizationUrl := some "https://auth" }
    "https://auth" "v1" "s1" "v2" "s2" initFlowSystem rfl rfl (by simp)

end CCR
